import Mathlib

/-!
Shallow embedding of the filamat material-package builder
(`libs/filamat/include/filamat/MaterialBuilder.h`) and of its
permutation-resolution and build-orchestration engine.

The repository snapshot contains only the public header; the member
function bodies (`MaterialBuilder.cpp`) are absent.  Definitions whose
bodies are not in the header are therefore modelled from the spec
(sections 3, 4.2, 4.3, 4.4, 6) and carry a doc comment saying so; the
state layout, the defaults, the inline accessors and the inline
`Parameter` constructors come from the header itself.
-/

namespace Filamat

/-- From `MaterialBuilderBase::Platform` (MaterialBuilder.h lines 54-58). -/
inductive Platform
  | DESKTOP
  | MOBILE
  | ALL
deriving Repr, DecidableEq, Inhabited

/-- From `MaterialBuilderBase::TargetApi` (MaterialBuilder.h lines 60-64). -/
inductive TargetApi
  | ALL
  | OPENGL
  | VULKAN
deriving Repr, DecidableEq, Inhabited

/-- Modelled from the spec: `filament::driver::ShaderModel` is declared in
`DriverEnums.h`, which is not in the snapshot.  The spec (section 4.2) speaks
of one shader-model class per deployment class: one mobile model and one
desktop model. -/
inductive ShaderModel
  | GL_ES_30
  | GL_CORE_41
deriving Repr, DecidableEq, Inhabited

/-- Modelled from the spec: `filament::driver::ShaderType` (vertex and
fragment stages), declared in the missing `DriverEnums.h`. -/
inductive ShaderType
  | VERTEX
  | FRAGMENT
deriving Repr, DecidableEq, Inhabited

/-- Modelled from the spec: `filament::driver::UniformType`, element type of a
uniform parameter, declared in the missing `DriverEnums.h`. -/
inductive UniformType
  | BOOL
  | FLOAT
  | FLOAT2
  | FLOAT3
  | FLOAT4
  | INT
  | MAT3
  | MAT4
deriving Repr, DecidableEq, Inhabited

/-- Modelled from the spec: `filament::driver::SamplerType`, declared in the
missing `DriverEnums.h`; `SAMPLER_EXTERNAL` denotes an externally-managed
source (header line 125). -/
inductive SamplerType
  | SAMPLER_2D
  | SAMPLER_CUBEMAP
  | SAMPLER_EXTERNAL
deriving Repr, DecidableEq, Inhabited

/-- Modelled from the spec: `filament::driver::SamplerFormat`, declared in the
missing `DriverEnums.h`. -/
inductive SamplerFormat
  | INT
  | UINT
  | FLOAT
  | SHADOW
deriving Repr, DecidableEq, Inhabited

/-- Modelled from the spec: `filament::driver::Precision` (the header aliases
it as `SamplerPrecision`), declared in the missing `DriverEnums.h`. -/
inductive SamplerPrecision
  | LOW
  | MEDIUM
  | HIGH
  | DEFAULT
deriving Repr, DecidableEq, Inhabited

/-- Modelled from the spec: `filament::BlendingMode` from the missing
`MaterialEnums.h`; the header defaults to `OPAQUE` (line 265) and names
`MASKED` in the maskThreshold comment (line 172). -/
inductive BlendingMode
  | OPAQUE
  | TRANSPARENT
  | ADD
  | MASKED
deriving Repr, DecidableEq, Inhabited

/-- Modelled from the spec: `filament::driver::CullingMode` from the missing
`DriverEnums.h`; the header defaults to `BACK` (line 266) and the
doubleSided comment names `NONE` (line 168). -/
inductive CullingMode
  | NONE
  | FRONT
  | BACK
  | FRONT_AND_BACK
deriving Repr, DecidableEq, Inhabited

/-- Modelled from the spec: `filament::Shading` from the missing
`MaterialEnums.h`; the header uses `LIT` as default (line 267) and tests
`UNLIT` in `isLit()` (line 252). -/
inductive Shading
  | UNLIT
  | LIT
deriving Repr, DecidableEq, Inhabited

/-- Modelled from the spec: `filament::Interpolation` from the missing
`MaterialEnums.h`; default `SMOOTH` (header line 268). -/
inductive Interpolation
  | SMOOTH
  | FLAT
deriving Repr, DecidableEq, Inhabited

/-- Modelled from the spec: `filament::VertexDomain` from the missing
`MaterialEnums.h`; default `OBJECT` (header line 269). -/
inductive VertexDomain
  | OBJECT
  | WORLD
  | VIEW
  | DEVICE
deriving Repr, DecidableEq, Inhabited

/-- Modelled from the spec: `filament::TransparencyMode` from the missing
`MaterialEnums.h`; default `DEFAULT` (header line 270). -/
inductive TransparencyMode
  | DEFAULT
  | TWO_PASSES_ONE_SIDE
  | TWO_PASSES_TWO_SIDES
deriving Repr, DecidableEq, Inhabited

/-- Modelled from the spec: `filament::Property` from the missing
`MaterialEnums.h`; one bit per recognized material property. -/
inductive Property
  | BASE_COLOR
  | ROUGHNESS
  | METALLIC
  | REFLECTANCE
  | EMISSIVE
deriving Repr, DecidableEq, Inhabited

/-- Bit index of a property in the property-used bitset. -/
def Property.bit : Property → Nat
  | .BASE_COLOR => 0
  | .ROUGHNESS => 1
  | .METALLIC => 2
  | .REFLECTANCE => 3
  | .EMISSIVE => 4

/-- Modelled from the spec: `filament::Variable` from the missing
`MaterialEnums.h`; custom-variable slots are fixed in count and position. -/
inductive Variable
  | CUSTOM0
  | CUSTOM1
  | CUSTOM2
  | CUSTOM3
deriving Repr, DecidableEq, Inhabited

/-- Modelled from the spec: `filament::VertexAttribute` from the missing
`MaterialEnums.h`; position is always required and normal/tangent depends on
the shading model (header lines 137-138, spec section 3). -/
inductive VertexAttribute
  | POSITION
  | TANGENTS
  | COLOR
  | UV0
  | UV1
  | BONE_INDICES
  | BONE_WEIGHTS
deriving Repr, DecidableEq, Inhabited

/-- Bit index of a vertex attribute in the `AttributeBitset`. -/
def VertexAttribute.bit : VertexAttribute → Nat
  | .POSITION => 0
  | .TANGENTS => 1
  | .COLOR => 2
  | .UV0 => 3
  | .UV1 => 4
  | .BONE_INDICES => 5
  | .BONE_WEIGHTS => 6

/-- From `MaterialBuilder::MAX_PARAMETERS_COUNT` (header line 234). -/
def MAX_PARAMETERS_COUNT : Nat := 32

/-- From `MaterialBuilder::Parameter` (header lines 202-220).  The C++ type
holds a union of the uniform type and the sampler triple; here both sides are
present and `isSampler` tags which side is active, the inactive side keeping
the first enumerator as an inert filler. -/
structure Parameter where
  name : String
  size : Nat
  uniformType : UniformType
  samplerType : SamplerType
  samplerFormat : SamplerFormat
  samplerPrecision : SamplerPrecision
  isSampler : Bool
deriving Repr, DecidableEq, Inhabited

/-- From the inline sampler constructor of `Parameter` (header lines 204-206):
stores name, size 1, sampler type, format and precision, and tags the entry
as a sampler.  The inactive union member is filler. -/
def Parameter.ofSampler (paramName : String) (t : SamplerType) (f : SamplerFormat)
    (p : SamplerPrecision) : Parameter :=
  { name := paramName, size := 1, uniformType := .BOOL,
    samplerType := t, samplerFormat := f, samplerPrecision := p, isSampler := true }

/-- From the inline uniform constructor of `Parameter` (header lines 207-208):
stores name, type size and uniform type, tagged as non-sampler.  The inactive
union member is filler. -/
def Parameter.ofUniform (paramName : String) (t : UniformType) (typeSize : Nat) : Parameter :=
  { name := paramName, size := typeSize, uniformType := t,
    samplerType := .SAMPLER_2D, samplerFormat := .INT, samplerPrecision := .LOW,
    isSampler := false }

/-- Accumulated builder state, from the data members of `MaterialBuilderBase`
(header lines 70-81) and `MaterialBuilder` (header lines 254-286) with their
in-class initializers.  The fixed `Parameter[MAX_PARAMETERS_COUNT]` array
together with `mParameterCount` is represented by the list of the registered
entries; bitsets are naturals; the float mask threshold is a rational.
`mCodeGenTargetApiSet` and `mConfigError` are modelled from the spec: the
first records whether the client called the `codeGenTargetApi` override
(spec section 4.2, the override is optional), the second records a
ConfigurationError such as parameter-capacity overflow (spec section 7),
both maintained by code whose bodies are not in the snapshot. -/
structure MaterialBuilder where
  mPlatform : Platform := .DESKTOP
  mTargetApi : TargetApi := .OPENGL
  mCodeGenTargetApi : TargetApi := .OPENGL
  mCodeGenTargetApiSet : Bool := false
  mVariantFilter : Nat := 0
  mMaterialName : String := ""
  mMaterialCode : String := ""
  mMaterialVertexCode : String := ""
  mMaterialLineOffset : Nat := 0
  mMaterialVertexLineOffset : Nat := 0
  mProperties : Nat := 0
  mParameters : List Parameter := []
  mVariables : List (Variable × String) := []
  mBlendingMode : BlendingMode := .OPAQUE
  mCullingMode : CullingMode := .BACK
  mShading : Shading := .LIT
  mInterpolation : Interpolation := .SMOOTH
  mVertexDomain : VertexDomain := .OBJECT
  mTransparencyMode : TransparencyMode := .DEFAULT
  mRequiredAttributes : Nat := 0
  mMaskThreshold : ℚ := 2/5
  mShadowMultiplier : Bool := false
  mDoubleSided : Bool := false
  mDoubleSidedSet : Bool := false
  mColorWrite : Bool := true
  mDepthTest : Bool := true
  mDepthWrite : Bool := true
  mDepthWriteSet : Bool := false
  mConfigError : Bool := false
deriving Repr, DecidableEq, Inhabited

/-- A freshly constructed builder: every field at its in-class default
(header lines 71-73, 81, 265-284; spec section 6 lists the same defaults). -/
def materialBuilderInit : MaterialBuilder := {}

/-- From `MaterialBuilder::name` (header line 107). -/
def MaterialBuilder.name (b : MaterialBuilder) (n : String) : MaterialBuilder :=
  { b with mMaterialName := n }

/-- From `MaterialBuilder::shading` (header line 110). -/
def MaterialBuilder.shading (b : MaterialBuilder) (s : Shading) : MaterialBuilder :=
  { b with mShading := s }

/-- From `MaterialBuilder::interpolation` (header line 113). -/
def MaterialBuilder.interpolation (b : MaterialBuilder) (i : Interpolation) : MaterialBuilder :=
  { b with mInterpolation := i }

/-- From `MaterialBuilder::set` (header line 116): marks one bit in the
fixed-size property-used table (spec section 4.1). -/
def MaterialBuilder.set (b : MaterialBuilder) (p : Property) : MaterialBuilder :=
  { b with mProperties := b.mProperties ||| (1 <<< p.bit) }

/-- The four `MaterialBuilder::parameter` overloads (header lines 119-132)
funnelled through one argument type: a uniform, a uniform array, or a sampler
with format and precision. -/
inductive ParamArgs
  | uniform (t : UniformType) (name : String)
  | uniformArray (t : UniformType) (size : Nat) (name : String)
  | sampler (t : SamplerType) (f : SamplerFormat) (p : SamplerPrecision) (name : String)
deriving Repr, DecidableEq, Inhabited

/-- The `Parameter` entry a registration request constructs, via the inline
`Parameter` constructors of the header. -/
def ParamArgs.toParameter : ParamArgs → Parameter
  | .uniform t n => Parameter.ofUniform n t 1
  | .uniformArray t s n => Parameter.ofUniform n t s
  | .sampler t f p n => Parameter.ofSampler n t f p

/-- Modelled from the spec: the body of `MaterialBuilder::parameter` is not in
the snapshot.  Spec section 4.1: registration appends to the ordered table and
fails if the table already holds the maximum permitted count; section 7 labels
capacity overflow a ConfigurationError, fatal and without partial insert. -/
def MaterialBuilder.parameter (b : MaterialBuilder) (r : ParamArgs) : MaterialBuilder :=
  if b.mParameters.length < MAX_PARAMETERS_COUNT then
    { b with mParameters := b.mParameters ++ [r.toParameter] }
  else
    { b with mConfigError := true }

/-- Registration requests applied in sequence, front of the list first. -/
def applyParams (b : MaterialBuilder) : List ParamArgs → MaterialBuilder
  | [] => b
  | r :: rs => applyParams (b.parameter r) rs

/-- Modelled from the spec: `MaterialBuilder::variable` (header line 135)
assigns a name to one of the fixed custom-variable slots keyed by the
variable identifier (spec section 4.1). -/
def MaterialBuilder.setVariable (b : MaterialBuilder) (v : Variable) (n : String) :
    MaterialBuilder :=
  { b with mVariables := (v, n) :: (b.mVariables.filter fun s => s.1 != v) }

/-- From `MaterialBuilder::require` (header line 139): adds one attribute to
the required-attribute bitset. -/
def MaterialBuilder.require (b : MaterialBuilder) (a : VertexAttribute) : MaterialBuilder :=
  { b with mRequiredAttributes := b.mRequiredAttributes ||| (1 <<< a.bit) }

/-- From `MaterialBuilder::material` (header line 144). -/
def MaterialBuilder.material (b : MaterialBuilder) (code : String) (line : Nat) :
    MaterialBuilder :=
  { b with mMaterialCode := code, mMaterialLineOffset := line }

/-- From `MaterialBuilder::materialVertex` (header line 148). -/
def MaterialBuilder.materialVertex (b : MaterialBuilder) (code : String) (line : Nat) :
    MaterialBuilder :=
  { b with mMaterialVertexCode := code, mMaterialVertexLineOffset := line }

/-- From `MaterialBuilder::blending` (header line 151). -/
def MaterialBuilder.blending (b : MaterialBuilder) (m : BlendingMode) : MaterialBuilder :=
  { b with mBlendingMode := m }

/-- From `MaterialBuilder::vertexDomain` (header line 154). -/
def MaterialBuilder.vertexDomain (b : MaterialBuilder) (d : VertexDomain) : MaterialBuilder :=
  { b with mVertexDomain := d }

/-- From `MaterialBuilder::culling` (header line 157). -/
def MaterialBuilder.culling (b : MaterialBuilder) (c : CullingMode) : MaterialBuilder :=
  { b with mCullingMode := c }

/-- From `MaterialBuilder::colorWrite` (header line 160). -/
def MaterialBuilder.colorWrite (b : MaterialBuilder) (e : Bool) : MaterialBuilder :=
  { b with mColorWrite := e }

/-- From `MaterialBuilder::depthWrite` (header line 163); the set-flag
`mDepthWriteSet` (header line 284) records the explicit override. -/
def MaterialBuilder.depthWrite (b : MaterialBuilder) (e : Bool) : MaterialBuilder :=
  { b with mDepthWrite := e, mDepthWriteSet := true }

/-- From `MaterialBuilder::depthCulling` (header line 166). -/
def MaterialBuilder.depthCulling (b : MaterialBuilder) (e : Bool) : MaterialBuilder :=
  { b with mDepthTest := e }

/-- From `MaterialBuilder::doubleSided` (header line 170); the set-flag
`mDoubleSidedSet` (header line 280) records that the client called it. -/
def MaterialBuilder.doubleSided (b : MaterialBuilder) (d : Bool) : MaterialBuilder :=
  { b with mDoubleSided := d, mDoubleSidedSet := true }

/-- From `MaterialBuilder::maskThreshold` (header line 173). -/
def MaterialBuilder.maskThreshold (b : MaterialBuilder) (t : ℚ) : MaterialBuilder :=
  { b with mMaskThreshold := t }

/-- From `MaterialBuilder::shadowMultiplier` (header line 176). -/
def MaterialBuilder.shadowMultiplier (b : MaterialBuilder) (s : Bool) : MaterialBuilder :=
  { b with mShadowMultiplier := s }

/-- From `MaterialBuilder::transparencyMode` (header line 179). -/
def MaterialBuilder.transparencyMode (b : MaterialBuilder) (m : TransparencyMode) :
    MaterialBuilder :=
  { b with mTransparencyMode := m }

/-- From `MaterialBuilder::platform` (header line 183). -/
def MaterialBuilder.platform (b : MaterialBuilder) (p : Platform) : MaterialBuilder :=
  { b with mPlatform := p }

/-- From `MaterialBuilder::targetApi` (header line 187). -/
def MaterialBuilder.targetApi (b : MaterialBuilder) (t : TargetApi) : MaterialBuilder :=
  { b with mTargetApi := t }

/-- From `MaterialBuilder::codeGenTargetApi` (header line 192): overrides the
target API used during code generation.  The set-flag is modelled from the
spec (section 4.2: the override is optional, defaulting to the per-job
target API). -/
def MaterialBuilder.codeGenTargetApi (b : MaterialBuilder) (t : TargetApi) : MaterialBuilder :=
  { b with mCodeGenTargetApi := t, mCodeGenTargetApiSet := true }

/-- From `MaterialBuilder::variantFilter` (header line 195): stores the 8-bit
exclusion mask (`uint8_t`, hence modulo 256). -/
def MaterialBuilder.variantFilter (b : MaterialBuilder) (v : Nat) : MaterialBuilder :=
  { b with mVariantFilter := v % 256 }

/-- From `MaterialBuilder::getParameterCount` (header line 238): the number of
parameters declared in this material. -/
def MaterialBuilder.getParameterCount (b : MaterialBuilder) : Nat :=
  b.mParameters.length

/-- From `MaterialBuilder::getParameters` (header line 241): the list of
registered parameters. -/
def MaterialBuilder.getParameters (b : MaterialBuilder) : List Parameter :=
  b.mParameters

/-- From `MaterialBuilder::getVariantFilter` (header line 247). -/
def MaterialBuilder.getVariantFilter (b : MaterialBuilder) : Nat :=
  b.mVariantFilter

/-- From `MaterialBuilder::isLit` (header line 252). -/
def MaterialBuilder.isLit (b : MaterialBuilder) : Bool :=
  b.mShading != Shading.UNLIT

/-- Modelled from the spec: the body of `MaterialBuilder::hasExternalSampler`
is not in the snapshot; the header comment (line 228) states it returns true
if any of the parameter samplers is of type samplerExternal. -/
def MaterialBuilder.hasExternalSampler (b : MaterialBuilder) : Bool :=
  b.mParameters.any fun p => p.isSampler && p.samplerType == SamplerType.SAMPLER_EXTERNAL

/-- From `MaterialBuilderBase::CodeGenParams` (header lines 75-79): one
shader-generation job. -/
structure CodeGenParams where
  shaderModel : ShaderModel
  targetApi : TargetApi
  codeGenTargetApi : TargetApi
deriving Repr, DecidableEq, Inhabited

/-- Modelled from the spec (section 4.2): the shader-model set selected by a
deployment platform; the body of `MaterialBuilderBase::prepare` is not in the
snapshot.  `DESKTOP` and `MOBILE` each select their respective model class and
`ALL` expands to the union of both. -/
def shaderModelsFor : Platform → List ShaderModel
  | .DESKTOP => [.GL_CORE_41]
  | .MOBILE => [.GL_ES_30]
  | .ALL => [.GL_ES_30, .GL_CORE_41]

/-- Modelled from the spec (section 4.2): the backend APIs selected by a
target-API setting; `ALL` expands to one job per supported backend API
(OpenGL and Vulkan), a concrete value selects exactly that API. -/
def apisFor : TargetApi → List TargetApi
  | .ALL => [.OPENGL, .VULKAN]
  | .OPENGL => [.OPENGL]
  | .VULKAN => [.VULKAN]

/-- Modelled from the spec (section 4.2): the pure resolver
`resolve(platform, targetApi, codeGenTargetApiOverride)` producing the ordered
job list; per job the codegen target API defaults to the target API unless the
single global override is present. -/
def resolve (platform : Platform) (targetApi : TargetApi)
    (codeGenOverride : Option TargetApi) : List CodeGenParams :=
  (shaderModelsFor platform).flatMap fun m =>
    (apisFor targetApi).map fun api =>
      { shaderModel := m, targetApi := api, codeGenTargetApi := codeGenOverride.getD api }

/-- The override argument the builder hands to the resolver: present exactly
when the client called `codeGenTargetApi` (spec section 4.2). -/
def MaterialBuilder.codeGenOverride (b : MaterialBuilder) : Option TargetApi :=
  if b.mCodeGenTargetApiSet then some b.mCodeGenTargetApi else none

/-- The resolved job list of a builder: what `prepare()` (header line 68)
stores into `mCodeGenPermutations` (header line 80), modelled from the spec
since the body of `prepare` is not in the snapshot. -/
def MaterialBuilder.jobs (b : MaterialBuilder) : List CodeGenParams :=
  resolve b.mPlatform b.mTargetApi b.codeGenOverride

/-- Modelled from the spec (sections 4.3 and 3): the engine enumerates eight
runtime variant flags, matching the 8-bit `uint8_t` filter mask of the
header (line 81). -/
def variantCount : Nat := 8

/-- The filter mask that excludes the full variant enumeration: all eight
variant bits set. -/
def fullVariantMask : Nat := 255

/-- Modelled from the spec (section 4.3): for each job the effective variant
set is the full engine variant enumeration AND NOT the exclusion mask. -/
def effectiveVariants (filter : Nat) : List Nat :=
  (List.range variantCount).filter fun v => ! filter.testBit v

/-- The baseline variant: variant 0, the one `peek` generates
(spec section 4.4). -/
def baselineVariant : Nat := 0

/-- The canonical, validated material description (spec section 3,
`MaterialDescriptor`): the `MaterialInfo` structure is only
forward-declared in the header (line 48), so it is modelled from the spec.
Parameters appear in their code-generation view (`ParamView`). -/
inductive ParamView
  | uniform (name : String) (t : UniformType) (size : Nat)
  | sampler (name : String) (t : SamplerType) (f : SamplerFormat) (p : SamplerPrecision)
  | externalSampler (name : String)
deriving Repr, DecidableEq, Inhabited

/-- Modelled from the spec (section 4.1): the code-generation view of one
parameter entry; format and precision are ignored (dropped) when the sampler
type denotes an externally-managed source (header line 125). -/
def Parameter.codeGenView (p : Parameter) : ParamView :=
  if p.isSampler then
    if p.samplerType == SamplerType.SAMPLER_EXTERNAL then .externalSampler p.name
    else .sampler p.name p.samplerType p.samplerFormat p.samplerPrecision
  else .uniform p.name p.uniformType p.size

/-- Modelled from the spec (section 3): the canonical material descriptor
produced by normalization. -/
structure MaterialInfo where
  name : String
  shading : Shading
  blendingMode : BlendingMode
  culling : CullingMode
  colorWrite : Bool
  depthTest : Bool
  depthWrite : Bool
  doubleSided : Bool
  transparencyMode : TransparencyMode
  maskThreshold : ℚ
  shadowMultiplier : Bool
  requiredAttributes : Nat
  parameters : List ParamView
  materialCode : String
  materialVertexCode : String
deriving Repr, DecidableEq, Inhabited

/-- Modelled from the spec (section 4.4): `prepareToBuild` (header line 250)
normalizes the accumulated state into the canonical descriptor — the
double-sided override of culling, the depth-write default from the blending
mode when unset (header line 162: enabled by default for opaque, disabled
for others), the required-attribute set from the shading model (position
always, tangents when lit).  It is a non-const member, so it also returns the
builder with the normalization it persists (the computed required-attribute
bitset). -/
def MaterialBuilder.prepareToBuild (b : MaterialBuilder) : MaterialInfo × MaterialBuilder :=
  let requiredAttributes :=
    b.mRequiredAttributes ||| (1 <<< VertexAttribute.POSITION.bit) |||
      (if b.isLit then (1 <<< VertexAttribute.TANGENTS.bit) else 0)
  let info : MaterialInfo :=
    { name := b.mMaterialName
      shading := b.mShading
      blendingMode := b.mBlendingMode
      culling := if b.mDoubleSidedSet && b.mDoubleSided then .NONE else b.mCullingMode
      colorWrite := b.mColorWrite
      depthTest := b.mDepthTest
      depthWrite := if b.mDepthWriteSet then b.mDepthWrite
        else b.mBlendingMode == BlendingMode.OPAQUE
      doubleSided := b.mDoubleSided
      transparencyMode := b.mTransparencyMode
      maskThreshold := b.mMaskThreshold
      shadowMultiplier := b.mShadowMultiplier
      requiredAttributes := requiredAttributes
      parameters := b.mParameters.map Parameter.codeGenView
      materialCode := b.mMaterialCode
      materialVertexCode := b.mMaterialVertexCode }
  (info, { b with mRequiredAttributes := requiredAttributes })

/-- One (job, variant, stage) generation-and-post-process unit of the
orchestration matrix (spec sections 4.4 and 5). -/
structure BuildUnit where
  job : CodeGenParams
  variant : Nat
  stage : ShaderType
deriving Repr, DecidableEq, Inhabited

/-- Modelled from the spec (section 4.4): the full permutation times variant
times stage matrix, ordered by job, then variant, then stage. -/
def MaterialBuilder.unitsOf (b : MaterialBuilder) : List BuildUnit :=
  b.jobs.flatMap fun j =>
    (effectiveVariants b.mVariantFilter).flatMap fun v =>
      [{ job := j, variant := v, stage := .VERTEX },
       { job := j, variant := v, stage := .FRAGMENT }]

/-- From `PostProcessCallBack` (header lines 41-46): called with the input
shader, the shader type and the shader model; returns the output GLSL and the
output SPIR-V words on success, and `none` when the C++ callback returns
false to signal an error. -/
def PostProcessCallBack : Type :=
  String → ShaderType → ShaderModel → Option (String × List Nat)

/-- Modelled from the spec (section 6): the external shader-source generator,
an opaque deterministic capability
`generate(descriptor, job, variant, stage) -> text`. -/
def ShaderGenerator : Type :=
  MaterialInfo → CodeGenParams → Nat → ShaderType → String

/-- Modelled from the spec (sections 4.4 and 6): processing of one unit —
generate the source text, then route it through the post-process hook when
one is configured; `none` records a per-unit post-process failure.  When no
hook is configured the generated text is packaged as-is with no binary
artifact. -/
def processUnit (gen : ShaderGenerator) (info : MaterialInfo)
    (hook : Option PostProcessCallBack) (u : BuildUnit) : Option (String × List Nat) :=
  let text := gen info u.job u.variant u.stage
  match hook with
  | none => some (text, [])
  | some h => h text u.stage u.job.shaderModel

/-- Modelled from the spec (sections 3 and 6): the assembled package — the
C++ `Package` type lives in the missing `filamat/Package.h`.  `valid` is the
overall success flag; `units` are the collected artifacts in canonical
order. -/
structure Package where
  valid : Bool
  units : List (BuildUnit × String × List Nat)
deriving Repr, DecidableEq, Inhabited

/-- The observable outcome of one `build()` call, instrumented with the list
of generator invocations and the number of post-process hook invocations
(spec section 8 speaks of verifying generator calls via a call-count
double). -/
structure BuildOutcome where
  package : Package
  genCalls : List BuildUnit
  hookCalls : Nat
deriving Repr, DecidableEq, Inhabited

/-- Modelled from the spec (section 4.4): the body of `MaterialBuilder::build`
(header line 198) is not in the snapshot.  A ConfigurationError surfaces
before any generation work; otherwise the orchestrator completes the full
matrix — a per-unit failure does not abort remaining units — and success is
all-or-nothing: any failed unit yields an invalid/empty package. -/
def MaterialBuilder.build (gen : ShaderGenerator) (hook : Option PostProcessCallBack)
    (b : MaterialBuilder) : BuildOutcome :=
  if b.mConfigError then
    { package := { valid := false, units := [] }, genCalls := [], hookCalls := 0 }
  else
    let info := b.prepareToBuild.1
    let units := b.unitsOf
    let results := units.map fun u => (u, processUnit gen info hook u)
    if results.all fun r => r.2.isSome then
      { package :=
          { valid := true
            units := results.filterMap fun r => r.2.map fun a => (r.1, a) }
        genCalls := units
        hookCalls := if hook.isSome then units.length else 0 }
    else
      { package := { valid := false, units := [] }
        genCalls := units
        hookCalls := if hook.isSome then units.length else 0 }

/-- The observable outcome of one `peek` call: the returned text, the chosen
shader model (the reference out-parameter of header line 226), the builder
state after the call, and the number of post-process hook invocations. -/
structure PeekOutcome where
  text : String
  model : ShaderModel
  builderAfter : MaterialBuilder
  hookCalls : Nat
deriving Repr, DecidableEq, Inhabited

/-- Modelled from the spec (section 4.4): the body of `MaterialBuilder::peek`
(header lines 225-226) is not in the snapshot.  It runs `prepareToBuild`,
generates source only for the first resolved job at the baseline variant,
and does not invoke the post-processor nor write a package. -/
def MaterialBuilder.peek (gen : ShaderGenerator) (hook : Option PostProcessCallBack)
    (b : MaterialBuilder) (type : ShaderType) : PeekOutcome :=
  let info := b.prepareToBuild.1
  let after := b.prepareToBuild.2
  match b.jobs with
  | [] => { text := "", model := .GL_ES_30, builderAfter := after, hookCalls := 0 }
  | j :: _ =>
      { text := gen info j baselineVariant type, model := j.shaderModel,
        builderAfter := after, hookCalls := 0 }

/-! Theorems -/

/-- Any job produced by the resolver carries the override as its codegen
target API when the override is present, its own target API otherwise, and
its target API is one of the APIs selected by the targetApi setting. -/
theorem mem_resolve (p : Platform) (ta : TargetApi) (ov : Option TargetApi)
    (j : CodeGenParams) (h : j ∈ resolve p ta ov) :
    j.codeGenTargetApi = ov.getD j.targetApi ∧ j.targetApi ∈ apisFor ta := by
  simp only [resolve, List.mem_flatMap, List.mem_map] at h
  obtain ⟨m, _, api, hapi, rfl⟩ := h
  exact ⟨rfl, hapi⟩

/-- The target-API metadata of the resolved job list does not depend on the
codegen override. -/
theorem resolve_map_targetApi (p : Platform) (ta : TargetApi)
    (ov ov2 : Option TargetApi) :
    (resolve p ta ov).map CodeGenParams.targetApi
      = (resolve p ta ov2).map CodeGenParams.targetApi := by
  cases p <;> cases ta <;>
    simp [resolve, shaderModelsFor, apisFor, List.map_flatMap, Function.comp]

/-- C2: for every targetApi and codeGenTargetApi setting, the job list the
resolver produces for platform ALL has no duplicates and holds exactly the
jobs produced for DESKTOP together with those produced for MOBILE. -/
theorem resolve_all_union (ta : TargetApi) (ov : Option TargetApi) :
    (resolve .ALL ta ov).Nodup ∧
    ∀ j : CodeGenParams, j ∈ resolve .ALL ta ov ↔
      (j ∈ resolve .DESKTOP ta ov ∨ j ∈ resolve .MOBILE ta ov) := by
  constructor
  · rcases ov with _ | x
    · cases ta <;> decide
    · cases ta <;> cases x <;> decide
  · intro j
    have happ : resolve .ALL ta ov = resolve .MOBILE ta ov ++ resolve .DESKTOP ta ov := by
      simp [resolve, shaderModelsFor]
    rw [happ, List.mem_append]
    tauto

/-- C4: doubleSided(true) then culling(c) and culling(c) then
doubleSided(true) both normalize to the effective culling mode NONE: the
double-sided setting overrides the culling mode regardless of call order. -/
theorem doubleSided_overrides_culling (c : CullingMode) :
    ((materialBuilderInit.culling c).doubleSided true).prepareToBuild.1.culling
      = CullingMode.NONE ∧
    ((materialBuilderInit.doubleSided true).culling c).prepareToBuild.1.culling
      = CullingMode.NONE :=
  ⟨rfl, rfl⟩

/-- C5: without the codeGenTargetApi override every resolved job carries its
own target API as codegen target; after calling the override with x, every
job carries x uniformly while the target-API metadata of the job list is
unchanged. -/
theorem codeGenTargetApi_resolution (b : MaterialBuilder) (x : TargetApi)
    (j j2 : CodeGenParams)
    (hset : b.mCodeGenTargetApiSet = false)
    (hj : j ∈ b.jobs)
    (hj2 : j2 ∈ (b.codeGenTargetApi x).jobs) :
    j.codeGenTargetApi = j.targetApi ∧
    j2.codeGenTargetApi = x ∧
    (b.codeGenTargetApi x).jobs.map CodeGenParams.targetApi
      = b.jobs.map CodeGenParams.targetApi := by
  refine ⟨?_, ?_, ?_⟩
  · simp only [MaterialBuilder.jobs, MaterialBuilder.codeGenOverride, hset,
      if_false, Bool.false_eq_true] at hj
    simpa using (mem_resolve _ _ _ _ hj).1
  · simp only [MaterialBuilder.jobs, MaterialBuilder.codeGenOverride,
      MaterialBuilder.codeGenTargetApi, if_true] at hj2
    simpa using (mem_resolve _ _ _ _ hj2).1
  · simp only [MaterialBuilder.jobs, MaterialBuilder.codeGenTargetApi]
    exact resolve_map_targetApi _ _ _ _

/-- Witness for codeGenTargetApi_resolution at the fresh builder with the
override VULKAN and the concrete jobs of the two lists. -/
theorem codeGenTargetApi_resolution_witness :
    materialBuilderInit.mCodeGenTargetApiSet = false ∧
    ({ shaderModel := .GL_CORE_41, targetApi := .OPENGL, codeGenTargetApi := .OPENGL }
        : CodeGenParams) ∈ materialBuilderInit.jobs ∧
    ({ shaderModel := .GL_CORE_41, targetApi := .OPENGL, codeGenTargetApi := .VULKAN }
        : CodeGenParams) ∈ (materialBuilderInit.codeGenTargetApi .VULKAN).jobs ∧
    (({ shaderModel := .GL_CORE_41, targetApi := .OPENGL, codeGenTargetApi := .OPENGL }
        : CodeGenParams).codeGenTargetApi
      = ({ shaderModel := .GL_CORE_41, targetApi := .OPENGL, codeGenTargetApi := .OPENGL }
        : CodeGenParams).targetApi ∧
     ({ shaderModel := .GL_CORE_41, targetApi := .OPENGL, codeGenTargetApi := .VULKAN }
        : CodeGenParams).codeGenTargetApi = TargetApi.VULKAN ∧
     (materialBuilderInit.codeGenTargetApi .VULKAN).jobs.map CodeGenParams.targetApi
       = materialBuilderInit.jobs.map CodeGenParams.targetApi) :=
  ⟨rfl, by decide, by decide,
    codeGenTargetApi_resolution materialBuilderInit .VULKAN _ _ rfl (by decide) (by decide)⟩

/-- C8: with blending MASKED and the threshold never set, the canonical
descriptor carries the default mask threshold 0.4; the maskThreshold mutator
records any value; and under OPAQUE blending the value changes neither the
required-attribute set nor the depth-write default of the canonical
descriptor. -/
theorem maskThreshold_behavior (t : ℚ) (b : MaterialBuilder)
    (hb : b.mBlendingMode = BlendingMode.OPAQUE) :
    (materialBuilderInit.blending .MASKED).prepareToBuild.1.maskThreshold = 2/5 ∧
    (materialBuilderInit.blending .MASKED).prepareToBuild.1.blendingMode
      = BlendingMode.MASKED ∧
    (b.maskThreshold t).mMaskThreshold = t ∧
    (b.maskThreshold t).prepareToBuild.1.requiredAttributes
      = b.prepareToBuild.1.requiredAttributes ∧
    (b.maskThreshold t).prepareToBuild.1.depthWrite = b.prepareToBuild.1.depthWrite :=
  ⟨rfl, rfl, rfl, rfl, rfl⟩

/-- Witness for maskThreshold_behavior at threshold 1 on the fresh builder,
whose blending mode is the default OPAQUE. -/
theorem maskThreshold_behavior_witness :
    materialBuilderInit.mBlendingMode = BlendingMode.OPAQUE ∧
    ((materialBuilderInit.blending .MASKED).prepareToBuild.1.maskThreshold = 2/5 ∧
     (materialBuilderInit.blending .MASKED).prepareToBuild.1.blendingMode
       = BlendingMode.MASKED ∧
     (materialBuilderInit.maskThreshold 1).mMaskThreshold = 1 ∧
     (materialBuilderInit.maskThreshold 1).prepareToBuild.1.requiredAttributes
       = materialBuilderInit.prepareToBuild.1.requiredAttributes ∧
     (materialBuilderInit.maskThreshold 1).prepareToBuild.1.depthWrite
       = materialBuilderInit.prepareToBuild.1.depthWrite) :=
  ⟨rfl, maskThreshold_behavior 1 materialBuilderInit rfl⟩

/-- C10: hasExternalSampler returns true exactly when some registered
parameter is a sampler of type SAMPLER_EXTERNAL, and returns false on a
freshly constructed builder. -/
theorem hasExternalSampler_iff (b : MaterialBuilder) :
    (b.hasExternalSampler = true ↔
      ∃ p ∈ b.mParameters, p.isSampler = true
        ∧ p.samplerType = SamplerType.SAMPLER_EXTERNAL) ∧
    materialBuilderInit.hasExternalSampler = false := by
  constructor
  · simp [MaterialBuilder.hasExternalSampler, List.any_eq_true, Bool.and_eq_true]
  · rfl

/-- Registrations applied to a builder with room for all of them and no
pending error: each one appends exactly one entry and raises no error. -/
theorem applyParams_count_aux (reqs : List ParamArgs) (b : MaterialBuilder)
    (hcount : b.mParameters.length + reqs.length ≤ MAX_PARAMETERS_COUNT)
    (herr : b.mConfigError = false) :
    (applyParams b reqs).mParameters.length = b.mParameters.length + reqs.length ∧
    (applyParams b reqs).mConfigError = false := by
  induction reqs generalizing b with
  | nil => simpa [applyParams] using herr
  | cons r rs ih =>
    have hlt : b.mParameters.length < MAX_PARAMETERS_COUNT := by
      simp only [List.length_cons] at hcount
      omega
    have hb : b.parameter r
        = { b with mParameters := b.mParameters ++ [r.toParameter] } := by
      simp [MaterialBuilder.parameter, hlt]
    rw [applyParams, hb]
    have hstep := ih { b with mParameters := b.mParameters ++ [r.toParameter] }
      (by simp only [List.length_append, List.length_cons, List.length_nil] at hcount ⊢; omega)
      herr
    simp only [List.length_append, List.length_cons, List.length_nil] at hstep
    obtain ⟨h1, h2⟩ := hstep
    refine ⟨?_, h2⟩
    rw [h1]
    simp only [List.length_cons]
    omega

/-- C3: on a fresh builder a sequence of at most MAX_PARAMETERS_COUNT
registrations all succeed, the count ending at the length of the sequence
with no configuration error; one registration below capacity increments the
count by exactly one; and a registration attempted at capacity leaves the
count at MAX_PARAMETERS_COUNT and the stored parameter list unchanged while
flagging a configuration error. -/
theorem parameter_capacity (reqs : List ParamArgs) (r : ParamArgs)
    (b c : MaterialBuilder)
    (hlen : reqs.length ≤ MAX_PARAMETERS_COUNT)
    (hroom : c.getParameterCount < MAX_PARAMETERS_COUNT)
    (hfull : b.getParameterCount = MAX_PARAMETERS_COUNT) :
    ((applyParams materialBuilderInit reqs).getParameterCount = reqs.length ∧
      (applyParams materialBuilderInit reqs).mConfigError = false) ∧
    (c.parameter r).getParameterCount = c.getParameterCount + 1 ∧
    ((b.parameter r).getParameterCount = MAX_PARAMETERS_COUNT ∧
      (b.parameter r).mParameters = b.mParameters ∧
      (b.parameter r).mConfigError = true) := by
  refine ⟨?_, ?_, ?_⟩
  · have haux := applyParams_count_aux reqs materialBuilderInit
      (by simpa [materialBuilderInit] using hlen) rfl
    simpa [MaterialBuilder.getParameterCount, materialBuilderInit] using haux
  · simp only [MaterialBuilder.getParameterCount] at hroom ⊢
    simp [MaterialBuilder.parameter, hroom]
  · have hnot : ¬ b.mParameters.length < MAX_PARAMETERS_COUNT := by
      simp only [MaterialBuilder.getParameterCount] at hfull
      omega
    simp only [MaterialBuilder.getParameterCount] at hfull
    simp [MaterialBuilder.parameter, hnot, MaterialBuilder.getParameterCount, hfull]

/-- A builder whose parameter table is at full capacity. -/
def fullParamsBuilder : MaterialBuilder :=
  { materialBuilderInit with
    mParameters := List.replicate MAX_PARAMETERS_COUNT (Parameter.ofUniform "p" .FLOAT 1) }

/-- Witness for parameter_capacity: one registration on the fresh builder,
and one rejected registration on a builder holding 32 entries. -/
theorem parameter_capacity_witness :
    ([ParamArgs.uniform .FLOAT "u"].length ≤ MAX_PARAMETERS_COUNT ∧
     materialBuilderInit.getParameterCount < MAX_PARAMETERS_COUNT ∧
     fullParamsBuilder.getParameterCount = MAX_PARAMETERS_COUNT) ∧
    (((applyParams materialBuilderInit [ParamArgs.uniform .FLOAT "u"]).getParameterCount
        = [ParamArgs.uniform .FLOAT "u"].length ∧
      (applyParams materialBuilderInit [ParamArgs.uniform .FLOAT "u"]).mConfigError
        = false) ∧
     (materialBuilderInit.parameter (.uniform .INT "v")).getParameterCount
       = materialBuilderInit.getParameterCount + 1 ∧
     ((fullParamsBuilder.parameter (.uniform .INT "v")).getParameterCount
        = MAX_PARAMETERS_COUNT ∧
      (fullParamsBuilder.parameter (.uniform .INT "v")).mParameters
        = fullParamsBuilder.mParameters ∧
      (fullParamsBuilder.parameter (.uniform .INT "v")).mConfigError = true)) :=
  ⟨⟨by decide, by decide, by decide⟩,
    parameter_capacity [ParamArgs.uniform .FLOAT "u"] (.uniform .INT "v")
      fullParamsBuilder materialBuilderInit (by decide) (by decide) (by decide)⟩

/-- C6: peek at the FRAGMENT stage returns the text the generator produces
for the first resolved job at the baseline variant, performs zero
post-process hook invocations even when a hook is configured, and leaves the
builder in exactly the state prepareToBuild leaves it in. -/
theorem peek_fragment_spec (gen : ShaderGenerator) (hook : Option PostProcessCallBack)
    (b : MaterialBuilder) (j : CodeGenParams) (js : List CodeGenParams)
    (hj : b.jobs = j :: js) :
    (MaterialBuilder.peek gen hook b .FRAGMENT).text
      = gen b.prepareToBuild.1 j baselineVariant .FRAGMENT ∧
    (MaterialBuilder.peek gen hook b .FRAGMENT).model = j.shaderModel ∧
    (MaterialBuilder.peek gen hook b .FRAGMENT).hookCalls = 0 ∧
    (MaterialBuilder.peek gen hook b .FRAGMENT).builderAfter = b.prepareToBuild.2 := by
  simp [MaterialBuilder.peek, hj]

/-- Witness for peek_fragment_spec on the fresh builder, whose resolved job
list is the single desktop OpenGL job, with a constant generator and a hook
configured. -/
theorem peek_fragment_spec_witness :
    materialBuilderInit.jobs
      = [{ shaderModel := .GL_CORE_41, targetApi := .OPENGL, codeGenTargetApi := .OPENGL }] ∧
    ((MaterialBuilder.peek (fun _ _ _ _ => "frag")
        (some fun s _ _ => some (s, [])) materialBuilderInit .FRAGMENT).text
      = (fun (_ : MaterialInfo) (_ : CodeGenParams) (_ : Nat) (_ : ShaderType) => "frag")
          materialBuilderInit.prepareToBuild.1
          { shaderModel := .GL_CORE_41, targetApi := .OPENGL, codeGenTargetApi := .OPENGL }
          baselineVariant .FRAGMENT ∧
     (MaterialBuilder.peek (fun _ _ _ _ => "frag")
        (some fun s _ _ => some (s, [])) materialBuilderInit .FRAGMENT).model
      = ShaderModel.GL_CORE_41 ∧
     (MaterialBuilder.peek (fun _ _ _ _ => "frag")
        (some fun s _ _ => some (s, [])) materialBuilderInit .FRAGMENT).hookCalls = 0 ∧
     (MaterialBuilder.peek (fun _ _ _ _ => "frag")
        (some fun s _ _ => some (s, [])) materialBuilderInit .FRAGMENT).builderAfter
      = materialBuilderInit.prepareToBuild.2) :=
  ⟨rfl, peek_fragment_spec (fun _ _ _ _ => "frag") (some fun s _ _ => some (s, []))
      materialBuilderInit _ [] rfl⟩

/-- C7: with the variant filter equal to the full variant enumeration and no
configuration error, build succeeds — the package is valid — and records
zero generated variants: no unit at all, in particular none for any resolved
job. -/
theorem build_full_variant_filter (gen : ShaderGenerator)
    (hook : Option PostProcessCallBack) (b : MaterialBuilder)
    (hf : b.mVariantFilter = fullVariantMask)
    (he : b.mConfigError = false) :
    (MaterialBuilder.build gen hook b).package.valid = true ∧
    (MaterialBuilder.build gen hook b).package.units = [] ∧
    ∀ j ∈ b.jobs,
      ((MaterialBuilder.build gen hook b).package.units.filter
        fun u => u.1.job == j).length = 0 := by
  have hev : effectiveVariants fullVariantMask = [] := by decide
  have hunits : b.unitsOf = [] := by
    simp [MaterialBuilder.unitsOf, hf, hev]
  simp [MaterialBuilder.build, he, hunits]

/-- Witness for build_full_variant_filter: the fresh builder with the filter
set to 255. -/
theorem build_full_variant_filter_witness :
    ((materialBuilderInit.variantFilter 255).mVariantFilter = fullVariantMask ∧
     (materialBuilderInit.variantFilter 255).mConfigError = false) ∧
    ((MaterialBuilder.build (fun _ _ _ _ => "s") none
        (materialBuilderInit.variantFilter 255)).package.valid = true ∧
     (MaterialBuilder.build (fun _ _ _ _ => "s") none
        (materialBuilderInit.variantFilter 255)).package.units = [] ∧
     ∀ j ∈ (materialBuilderInit.variantFilter 255).jobs,
       (((MaterialBuilder.build (fun _ _ _ _ => "s") none
          (materialBuilderInit.variantFilter 255)).package.units.filter
         fun u => u.1.job == j).length = 0)) :=
  ⟨⟨rfl, rfl⟩, build_full_variant_filter (fun _ _ _ _ => "s") none
      (materialBuilderInit.variantFilter 255) rfl rfl⟩

/-- C1: when the configured post-process hook fails for exactly one
(job, variant, stage) unit — it fails at u0 and succeeds at every other unit
of the matrix — build reports overall failure with an invalid, empty
package, while the generator has been invoked for every unit of the full
matrix. -/
theorem build_single_hook_failure (gen : ShaderGenerator) (hook : PostProcessCallBack)
    (b : MaterialBuilder) (u0 : BuildUnit)
    (herr : b.mConfigError = false)
    (hmem : u0 ∈ b.unitsOf)
    (hfail : processUnit gen b.prepareToBuild.1 (some hook) u0 = none)
    (hothers : ∀ u ∈ b.unitsOf, u ≠ u0 →
      (processUnit gen b.prepareToBuild.1 (some hook) u).isSome = true) :
    (MaterialBuilder.build gen (some hook) b).package.valid = false ∧
    (MaterialBuilder.build gen (some hook) b).package.units = [] ∧
    (MaterialBuilder.build gen (some hook) b).genCalls = b.unitsOf := by
  have hall : (b.unitsOf.map fun u =>
      (u, processUnit gen b.prepareToBuild.1 (some hook) u)).all
        (fun r => r.2.isSome) = false := by
    rw [Bool.eq_false_iff]
    intro hcontra
    rw [List.all_eq_true] at hcontra
    have := hcontra (u0, processUnit gen b.prepareToBuild.1 (some hook) u0)
      (List.mem_map_of_mem _ hmem)
    rw [hfail] at this
    simp at this
  simp [MaterialBuilder.build, herr, hall]

/-- Generator double used by the single-failure witness: emits a distinct
text per (variant, stage). -/
def genDoubleW : ShaderGenerator := fun _ _ v s =>
  (if s == ShaderType.FRAGMENT then "F" else "V") ++ toString v

/-- Hook double used by the single-failure witness: fails exactly on the
text of the fragment stage of variant 0 and succeeds elsewhere. -/
def hookDoubleW : PostProcessCallBack := fun text _ _ =>
  if text == "F0" then none else some (text, [])

/-- The single failing unit of the witness matrix. -/
def unitFailW : BuildUnit :=
  { job := { shaderModel := .GL_CORE_41, targetApi := .OPENGL, codeGenTargetApi := .OPENGL },
    variant := 0, stage := .FRAGMENT }

/-- Witness for build_single_hook_failure: on the fresh builder the matrix
has 16 units; the hook double fails exactly at the fragment stage of
variant 0 of the single desktop job. -/
theorem build_single_hook_failure_witness :
    (materialBuilderInit.mConfigError = false ∧
     unitFailW ∈ materialBuilderInit.unitsOf ∧
     processUnit genDoubleW materialBuilderInit.prepareToBuild.1
       (some hookDoubleW) unitFailW = none ∧
     ∀ u ∈ materialBuilderInit.unitsOf, u ≠ unitFailW →
       (processUnit genDoubleW materialBuilderInit.prepareToBuild.1
         (some hookDoubleW) u).isSome = true) ∧
    ((MaterialBuilder.build genDoubleW (some hookDoubleW)
        materialBuilderInit).package.valid = false ∧
     (MaterialBuilder.build genDoubleW (some hookDoubleW)
        materialBuilderInit).package.units = [] ∧
     (MaterialBuilder.build genDoubleW (some hookDoubleW)
        materialBuilderInit).genCalls = materialBuilderInit.unitsOf) :=
  ⟨⟨rfl, by decide, by decide, by decide⟩,
    build_single_hook_failure genDoubleW hookDoubleW materialBuilderInit unitFailW
      rfl (by decide) (by decide) (by decide)⟩

/-- Refutation for C9 as stated: the format and precision of an external
sampler ARE visible in an output of the builder.  Two otherwise identical
builder runs that register the same external sampler with different formats
return different parameter lists from getParameters, because the inline
Parameter constructor of the header (lines 204-206) stores format and
precision unconditionally. -/
theorem getParameters_sees_external_format :
    (materialBuilderInit.parameter
        (.sampler .SAMPLER_EXTERNAL .INT .LOW "tex")).getParameters
      ≠ (materialBuilderInit.parameter
        (.sampler .SAMPLER_EXTERNAL .FLOAT .LOW "tex")).getParameters := by
  decide

/-- Two registrations of the same external sampler that differ only in format
and precision leave the builders in agreement on everything code generation
and orchestration read: the error flag, the canonical descriptor, the unit
matrix and the job list. -/
theorem parameter_external_agree (b : MaterialBuilder) (f f2 : SamplerFormat)
    (q q2 : SamplerPrecision) (n : String) :
    (b.parameter (.sampler .SAMPLER_EXTERNAL f q n)).mConfigError
      = (b.parameter (.sampler .SAMPLER_EXTERNAL f2 q2 n)).mConfigError ∧
    (b.parameter (.sampler .SAMPLER_EXTERNAL f q n)).prepareToBuild.1
      = (b.parameter (.sampler .SAMPLER_EXTERNAL f2 q2 n)).prepareToBuild.1 ∧
    (b.parameter (.sampler .SAMPLER_EXTERNAL f q n)).unitsOf
      = (b.parameter (.sampler .SAMPLER_EXTERNAL f2 q2 n)).unitsOf ∧
    (b.parameter (.sampler .SAMPLER_EXTERNAL f q n)).jobs
      = (b.parameter (.sampler .SAMPLER_EXTERNAL f2 q2 n)).jobs := by
  by_cases h : b.mParameters.length < MAX_PARAMETERS_COUNT <;>
    simp [MaterialBuilder.parameter, h, MaterialBuilder.prepareToBuild,
      MaterialBuilder.unitsOf, MaterialBuilder.jobs, MaterialBuilder.codeGenOverride,
      MaterialBuilder.isLit, Parameter.codeGenView, Parameter.ofSampler,
      ParamArgs.toParameter]

/-- Build outcomes agree whenever two builders agree on the error flag, the
canonical descriptor and the unit matrix. -/
theorem build_congr (gen : ShaderGenerator) (hook : Option PostProcessCallBack)
    (b1 b2 : MaterialBuilder)
    (he : b1.mConfigError = b2.mConfigError)
    (hi : b1.prepareToBuild.1 = b2.prepareToBuild.1)
    (hu : b1.unitsOf = b2.unitsOf) :
    MaterialBuilder.build gen hook b1 = MaterialBuilder.build gen hook b2 := by
  simp only [MaterialBuilder.build, he, hi, hu]

/-- C9 amended: the format and precision supplied for a SAMPLER_EXTERNAL
parameter have no effect on the code-generation outputs of the builder —
two otherwise identical runs produce identical build outcomes and identical
peek text and shader model — even though the raw stored parameter list
retains the supplied values. -/
theorem external_sampler_codegen_independent (gen : ShaderGenerator)
    (hook : Option PostProcessCallBack) (b : MaterialBuilder) (ty : ShaderType)
    (f f2 : SamplerFormat) (q q2 : SamplerPrecision) (n : String) :
    MaterialBuilder.build gen hook (b.parameter (.sampler .SAMPLER_EXTERNAL f q n))
      = MaterialBuilder.build gen hook (b.parameter (.sampler .SAMPLER_EXTERNAL f2 q2 n)) ∧
    (MaterialBuilder.peek gen hook (b.parameter (.sampler .SAMPLER_EXTERNAL f q n)) ty).text
      = (MaterialBuilder.peek gen hook
          (b.parameter (.sampler .SAMPLER_EXTERNAL f2 q2 n)) ty).text ∧
    (MaterialBuilder.peek gen hook (b.parameter (.sampler .SAMPLER_EXTERNAL f q n)) ty).model
      = (MaterialBuilder.peek gen hook
          (b.parameter (.sampler .SAMPLER_EXTERNAL f2 q2 n)) ty).model := by
  obtain ⟨he, hi, hu, hj⟩ := parameter_external_agree b f f2 q q2 n
  refine ⟨build_congr gen hook _ _ he hi hu, ?_, ?_⟩ <;>
    · simp only [MaterialBuilder.peek, hi, hj]
      cases (b.parameter (.sampler .SAMPLER_EXTERNAL f2 q2 n)).jobs <;> simp

end Filamat
